import Mathlib

/-!
Shallow embedding of the RpT-Minigames interactive websocket client
(src/client.py).

The client runs two asyncio coroutines over one websocket connection:
send_messages (client.py lines 22-38) and receive_messages (lines 41-53).
They share a console lock (asyncio.Lock, line 60) and an input_required
event (asyncio.Event, line 61).  A SIGINT handler (line 63) and the
receiver after its loop (line 53) both call require_input (lines 17-19),
which prints two backspace characters and sets the event.

The embedding is a small-step interleaving semantics.  Each coroutine is
a program counter ranging over its suspension points (its await
expressions); the code between two suspension points runs atomically,
exactly as asyncio schedules it on a single thread.  Environment events
(inbound message delivery, connection closure, SIGINT) are scheduler
labels of their own.  The transport collaborator (the websockets
library) is external to the repository and is modelled from the spec:
send and recv fail with ConnectionClosed exactly when the channel is no
longer open, and connection.open is readable at any time.
-/

/-- Tasks that could hold the console lock. -/
inductive Tid
  | senderTask
  | receiverTask
deriving DecidableEq

/-- Suspension points of send_messages (client.py lines 22-38).
loopCheck is the while test at line 25, waiting is the await at line 27,
acquiring is the lock acquisition at line 31 (followed synchronously by
the input call at line 32 and the lock release), sending is the await at
line 34, done means the coroutine returned. -/
inductive SenderPc
  | loopCheck
  | waiting
  | acquiring
  | sending (msg : String)
  | done
deriving DecidableEq

/-- Suspension points of receive_messages (client.py lines 41-53).
loopCheck is the while test at line 44, recv is the await at line 46,
printing is the lock acquisition at line 48 (followed synchronously by
the print at line 49 and the release), done means the coroutine
returned, after running require_input at line 53. -/
inductive ReceiverPc
  | loopCheck
  | recv
  | printing (msg : String)
  | done
deriving DecidableEq

/-- Kind of a terminal operation. -/
inductive OpKind
  | printRecv
  | printNotice
  | printBackspace
  | readLine
deriving DecidableEq

/-- One terminal operation together with whether it was performed inside
an async-with console_lock block (that is, while the performer holds the
Console Arbiter). -/
structure TermOp where
  kind : OpKind
  text : String
  locked : Bool
deriving DecidableEq

/-- The print at client.py line 49, inside the async-with block. -/
def recvOp (m : String) : TermOp :=
  ⟨OpKind.printRecv, "Recv: " ++ m, true⟩

/-- The closure notices at client.py lines 38 and 51, printed outside
any async-with block. -/
def noticeOp (r : String) : TermOp :=
  ⟨OpKind.printNotice, "Connection was closed: " ++ r, false⟩

/-- The backspace write at client.py line 18, outside any async-with
block; the string holds two backspace characters. -/
def backspaceOp : TermOp :=
  ⟨OpKind.printBackspace, "\x08\x08", false⟩

/-- The input call at client.py line 32: shows the compose prompt and
reads one line, inside the async-with block. -/
def readOp (line : String) : TermOp :=
  ⟨OpKind.readLine, line, true⟩

/-- Control state shared by the two coroutines, the signal handler and
the transport: both program counters, the input_required event flag, the
console lock holder, the connection open flag with the close reason,
the messages delivered but not yet received, the scripted operator input
lines, and the messages pushed by connection.send so far. -/
structure CoreState where
  senderPc : SenderPc
  receiverPc : ReceiverPc
  inputRequired : Bool
  lockHolder : Option Tid
  connOpen : Bool
  closeReason : String
  inbox : List String
  stdin : List String
  sent : List String
deriving DecidableEq

/-- Effect of one atomic slice: the next control state, the terminal
operations performed, and how many Event.set() calls were made. -/
structure Effect where
  core : CoreState
  ops : List TermOp
  sets : Nat
deriving DecidableEq

/-- client.py lines 17-19: print two backspaces (not under the console
lock), then set the input_required event. -/
def require_input (c : CoreState) : Effect :=
  ⟨{ c with inputRequired := true }, [backspaceOp], 1⟩

/-- One scheduling slice of send_messages (client.py lines 22-38),
starting at the suspension point recorded in the program counter. -/
def senderStep (c : CoreState) : Effect :=
  match c.senderPc with
  | SenderPc.loopCheck =>
      -- line 25: while connection.open
      if c.connOpen then ⟨{ c with senderPc := SenderPc.waiting }, [], 0⟩
      else ⟨{ c with senderPc := SenderPc.done }, [], 0⟩
  | SenderPc.waiting =>
      -- line 27: await input_required.wait(); resumes only once set
      if c.inputRequired then
        -- line 30: if connection.open
        if c.connOpen then ⟨{ c with senderPc := SenderPc.acquiring }, [], 0⟩
        else
          -- skip the prompt, line 36: input_required.clear()
          ⟨{ c with inputRequired := false, senderPc := SenderPc.loopCheck }, [], 0⟩
      else ⟨c, [], 0⟩
  | SenderPc.acquiring =>
      -- lines 31-32: async with console_lock: input("Send: "); release
      if c.lockHolder = none then
        match c.stdin with
        | line :: rest =>
            ⟨{ c with stdin := rest, senderPc := SenderPc.sending line },
             [readOp line], 0⟩
        | [] => ⟨c, [], 0⟩
      else ⟨c, [], 0⟩
  | SenderPc.sending msg =>
      -- line 34: await connection.send(msg)
      if c.connOpen then
        -- send succeeded, then line 36: input_required.clear()
        ⟨{ c with sent := c.sent ++ [msg], inputRequired := false,
                  senderPc := SenderPc.loopCheck }, [], 0⟩
      else
        -- lines 37-38: except ConnectionClosed: print the notice;
        -- line 36 is skipped, so the event is not cleared
        ⟨{ c with senderPc := SenderPc.loopCheck },
         [noticeOp c.closeReason], 0⟩
  | SenderPc.done => ⟨c, [], 0⟩

/-- One scheduling slice of receive_messages (client.py lines 41-53),
starting at the suspension point recorded in the program counter. -/
def receiverStep (c : CoreState) : Effect :=
  match c.receiverPc with
  | ReceiverPc.loopCheck =>
      -- line 44: while connection.open
      if c.connOpen then ⟨{ c with receiverPc := ReceiverPc.recv }, [], 0⟩
      else
        -- line 53: require_input(input_required) after the loop
        require_input { c with receiverPc := ReceiverPc.done }
  | ReceiverPc.recv =>
      -- line 46: await connection.recv()
      match c.inbox with
      | m :: rest => ⟨{ c with inbox := rest, receiverPc := ReceiverPc.printing m }, [], 0⟩
      | [] =>
          if c.connOpen then ⟨c, [], 0⟩
          else
            -- lines 50-51: except ConnectionClosed: print the notice
            ⟨{ c with receiverPc := ReceiverPc.loopCheck },
             [noticeOp c.closeReason], 0⟩
  | ReceiverPc.printing m =>
      -- lines 48-49: async with console_lock: print; release
      if c.lockHolder = none then
        ⟨{ c with receiverPc := ReceiverPc.loopCheck }, [recvOp m], 0⟩
      else ⟨c, [], 0⟩
  | ReceiverPc.done => ⟨c, [], 0⟩

/-- Scheduler labels: which coroutine runs its next slice, or which
environment event happens. -/
inductive Label
  | sender
  | receiver
  | deliver (m : String)
  | close (r : String)
  | sigint
deriving DecidableEq

/-- Dispatch one label.  deliver queues an inbound message while the
channel is open; close flips the single-writer open flag and records
the reason; sigint runs the handler registered at client.py line 63. -/
def coreStep (c : CoreState) : Label → Effect
  | Label.sender => senderStep c
  | Label.receiver => receiverStep c
  | Label.deliver m =>
      if c.connOpen then ⟨{ c with inbox := c.inbox ++ [m] }, [], 0⟩ else ⟨c, [], 0⟩
  | Label.close r =>
      if c.connOpen then ⟨{ c with connOpen := false, closeReason := r }, [], 0⟩
      else ⟨c, [], 0⟩
  | Label.sigint => require_input c

/-- Full observable state: control state plus the chronological terminal
trace and the total number of Event.set() calls. -/
structure ClientState where
  core : CoreState
  trace : List TermOp
  setCount : Nat
deriving DecidableEq

/-- Execute one label. -/
def step (s : ClientState) (l : Label) : ClientState :=
  ⟨(coreStep s.core l).core, s.trace ++ (coreStep s.core l).ops,
   s.setCount + (coreStep s.core l).sets⟩

/-- Execute a whole schedule. -/
def run (s : ClientState) (sched : List Label) : ClientState :=
  sched.foldl step s

/-- Control-state part of executing a schedule. -/
def runCore (c : CoreState) (sched : List Label) : CoreState :=
  sched.foldl (fun a l => (coreStep a l).core) c

/-- Terminal operations produced while executing a schedule from a given
control state. -/
def producedOps : CoreState → List Label → List TermOp
  | _, [] => []
  | c, l :: ls => (coreStep c l).ops ++ producedOps (coreStep c l).core ls

/-- Number of prompt cycles (compose-prompt line reads) in a trace. -/
def promptCycles (ops : List TermOp) : Nat :=
  ops.countP (fun op => op.kind == OpKind.readLine)

/-- State right after rptl_connection starts both tasks (client.py
lines 60-65): both loops at their while test, event clear, lock free,
connection open, given scripted stdin. -/
def initCore (stdin : List String) : CoreState :=
  ⟨SenderPc.loopCheck, ReceiverPc.loopCheck, false, none, true, "", [], stdin, []⟩

/-- Initial full state: empty trace, no set() call yet. -/
def initState (stdin : List String) : ClientState :=
  ⟨initCore stdin, [], 0⟩

theorem run_cons (s : ClientState) (l : Label) (ls : List Label) :
    run s (l :: ls) = run (step s l) ls := rfl

theorem runCore_cons (c : CoreState) (l : Label) (ls : List Label) :
    runCore c (l :: ls) = runCore (coreStep c l).core ls := rfl

theorem run_trace (sched : List Label) : ∀ s : ClientState,
    (run s sched).trace = s.trace ++ producedOps s.core sched := by
  induction sched with
  | nil => intro s; simp [run, producedOps]
  | cons l ls ih =>
      intro s
      rw [run_cons, ih]
      simp [step, producedOps, List.append_assoc]

theorem producedOps_pred (P : TermOp → Prop)
    (hstep : ∀ c l op, op ∈ (coreStep c l).ops → P op) :
    ∀ (sched : List Label) (c : CoreState) (op : TermOp),
      op ∈ producedOps c sched → P op := by
  intro sched
  induction sched with
  | nil => intro c op h; simp [producedOps] at h
  | cons l ls ih =>
      intro c op h
      rcases List.mem_append.mp (by simpa [producedOps] using h) with h1 | h2
      · exact hstep c l op h1
      · exact ih _ op h2

theorem coreStep_ops_locked (c : CoreState) (l : Label) (op : TermOp)
    (h : op ∈ (coreStep c l).ops) :
    op.locked = true ↔ (op.kind = OpKind.printRecv ∨ op.kind = OpKind.readLine) := by
  rcases c with ⟨sp, rp, ir, lh, co, cr, ib, si, se⟩
  cases l with
  | sender =>
      cases sp with
      | loopCheck => cases co <;> simp [coreStep, senderStep] at h
      | waiting => cases co <;> cases ir <;> simp [coreStep, senderStep] at h
      | acquiring =>
          rcases lh with _ | t
          · rcases si with _ | ⟨line, rest⟩
            · simp [coreStep, senderStep] at h
            · simp [coreStep, senderStep] at h
              subst h; simp [readOp]
          · simp [coreStep, senderStep] at h
      | sending msg =>
          cases co
          · simp [coreStep, senderStep] at h
            subst h; simp [noticeOp]
          · simp [coreStep, senderStep] at h
      | done => simp [coreStep, senderStep] at h
  | receiver =>
      cases rp with
      | loopCheck =>
          cases co
          · simp [coreStep, receiverStep, require_input] at h
            subst h; simp [backspaceOp]
          · simp [coreStep, receiverStep] at h
      | recv =>
          rcases ib with _ | ⟨m, rest⟩
          · cases co
            · simp [coreStep, receiverStep] at h
              subst h; simp [noticeOp]
            · simp [coreStep, receiverStep] at h
          · simp [coreStep, receiverStep] at h
      | printing m =>
          rcases lh with _ | t
          · simp [coreStep, receiverStep] at h
            subst h; simp [recvOp]
          · simp [coreStep, receiverStep] at h
      | done => simp [coreStep, receiverStep] at h
  | deliver m => cases co <;> simp [coreStep] at h
  | close r => cases co <;> simp [coreStep] at h
  | sigint =>
      simp [coreStep, require_input] at h
      subst h; simp [backspaceOp]

theorem sigint_core (c : CoreState) :
    (coreStep c Label.sigint).core = { c with inputRequired := true } := rfl

theorem sigint_iter (n : Nat) (c : CoreState) :
    runCore { c with inputRequired := true } (List.replicate n Label.sigint)
      = { c with inputRequired := true } := by
  induction n with
  | zero => rfl
  | succ k ih =>
      rw [List.replicate_succ, runCore_cons]
      exact ih

/-- Claim C1, counterexample: the claim says every terminal operation of
the Receiver loop, the Sender loop or the interrupt handler is performed
while holding the Console Arbiter.  In the execution where the channel
closes while the receiver is blocked in recv, the receiver prints its
closure notice (client.py line 51) outside the async-with console_lock
block, so not every terminal operation is arbiter-protected. -/
theorem c1_counterexample :
    ¬ (∀ op ∈ (run (initState []) [Label.receiver, Label.close "x", Label.receiver]).trace,
        op.locked = true) := by
  decide

/-- Claim C1, amended: in every execution from the initial state, a
terminal operation is performed while holding the Console Arbiter
exactly when it is a received-message print (client.py line 49) or a
compose-prompt line read (line 32); the closure notices (lines 38 and
51) and the interrupt handler backspace write (line 18) are performed
without the arbiter. -/
theorem c1_terminal_arbiter (stdin : List String) (sched : List Label)
    (op : TermOp) (h : op ∈ (run (initState stdin) sched).trace) :
    op.locked = true ↔ (op.kind = OpKind.printRecv ∨ op.kind = OpKind.readLine) := by
  have h2 : (run (initState stdin) sched).trace = producedOps (initCore stdin) sched := by
    rw [run_trace]
    rfl
  rw [h2] at h
  exact producedOps_pred _ coreStep_ops_locked sched (initCore stdin) op h

/-- Witness for c1_terminal_arbiter at a concrete execution and
operation. -/
theorem c1_witness :
    (backspaceOp.locked = true
      ↔ (backspaceOp.kind = OpKind.printRecv ∨ backspaceOp.kind = OpKind.readLine)) :=
  c1_terminal_arbiter [] [Label.sigint] backspaceOp (by decide)

/-- Claim C2, counterexample: the claim says every Sender iteration that
passes the wait clears the latch before the iteration ends, including
after a send attempt that fails with ConnectionClosed.  In the execution
below the operator interrupts, types a line, and the connection closes
before the send completes: the send raises ConnectionClosed (the notice
is in the trace), the iteration ends back at the while test, yet the
latch is still set, because line 36 of client.py was skipped by the
exception. -/
theorem c2_counterexample :
    (run (initState ["hi"]) [Label.sigint, Label.sender, Label.sender, Label.sender,
        Label.close "bye", Label.sender]).trace
      = [backspaceOp, readOp "hi", noticeOp "bye"]
    ∧ (run (initState ["hi"]) [Label.sigint, Label.sender, Label.sender, Label.sender,
        Label.close "bye", Label.sender]).core.senderPc = SenderPc.loopCheck
    ∧ ¬ ((run (initState ["hi"]) [Label.sigint, Label.sender, Label.sender, Label.sender,
        Label.close "bye", Label.sender]).core.inputRequired = false) := by
  refine ⟨rfl, rfl, ?_⟩
  decide

/-- Claim C2, amended: at the end of a Sender slice, the latch is
cleared on the successful-send path and on the skip path where the
session closed while waiting, but a send attempt that fails with
ConnectionClosed skips the clear and leaves the latch unchanged (hence
still set); every other slice leaves the latch unchanged. -/
theorem c2_latch_clear_paths (c : CoreState) :
    (senderStep c).core.inputRequired =
      (match c.senderPc with
       | SenderPc.waiting => c.inputRequired && c.connOpen
       | SenderPc.sending _ => if c.connOpen then false else c.inputRequired
       | _ => c.inputRequired) := by
  rcases c with ⟨sp, rp, ir, lh, co, cr, ib, si, se⟩
  cases sp <;>
    rcases lh with _ | t <;>
    rcases si with _ | ⟨line, rest⟩ <;>
    cases co <;> cases ir <;>
    simp [senderStep]

/-- Claim C3: when the receive attempt fails with ConnectionClosed, the
Receiver prints a closure notice carrying the close reason supplied by
the transport, exits its loop, and then calls Interrupt Latch set()
exactly once, leaving the latch set so that a Sender parked in wait()
is released. -/
theorem c3_receiver_closure (r : String) :
    (run (initState []) [Label.receiver, Label.close r, Label.receiver,
        Label.receiver]).trace = [noticeOp r, backspaceOp]
    ∧ (run (initState []) [Label.receiver, Label.close r, Label.receiver,
        Label.receiver]).core.receiverPc = ReceiverPc.done
    ∧ (run (initState []) [Label.receiver, Label.close r, Label.receiver,
        Label.receiver]).setCount = 1
    ∧ (run (initState []) [Label.receiver, Label.close r, Label.receiver,
        Label.receiver]).core.inputRequired = true :=
  ⟨rfl, rfl, rfl, rfl⟩

/-- Claim C4: from any state where the Sender passed the wait and the
session is observed closed, the next Sender slice clears the latch and
returns to the while test having performed no terminal operation and no
send, and the slice after that terminates the loop, again with no
terminal operation and no send. -/
theorem c4_no_prompt_after_close (c : CoreState)
    (hpc : c.senderPc = SenderPc.waiting) (hir : c.inputRequired = true)
    (hco : c.connOpen = false) :
    (senderStep c).core.inputRequired = false
    ∧ (senderStep c).core.senderPc = SenderPc.loopCheck
    ∧ (senderStep c).ops = []
    ∧ (senderStep c).core.sent = c.sent
    ∧ (senderStep (senderStep c).core).core.senderPc = SenderPc.done
    ∧ (senderStep (senderStep c).core).ops = []
    ∧ (senderStep (senderStep c).core).core.sent = c.sent := by
  rcases c with ⟨sp, rp, ir, lh, co, cr, ib, si, se⟩
  cases hpc; cases hir; cases hco
  exact ⟨rfl, rfl, rfl, rfl, rfl, rfl, rfl⟩

/-- Witness for c4_no_prompt_after_close at a concrete state. -/
theorem c4_witness :
    (senderStep ⟨SenderPc.waiting, ReceiverPc.loopCheck, true, none, false,
        "gone", [], ["line"], []⟩).core.inputRequired = false
    ∧ (senderStep ⟨SenderPc.waiting, ReceiverPc.loopCheck, true, none, false,
        "gone", [], ["line"], []⟩).core.senderPc = SenderPc.loopCheck
    ∧ (senderStep ⟨SenderPc.waiting, ReceiverPc.loopCheck, true, none, false,
        "gone", [], ["line"], []⟩).ops = []
    ∧ (senderStep ⟨SenderPc.waiting, ReceiverPc.loopCheck, true, none, false,
        "gone", [], ["line"], []⟩).core.sent
        = (⟨SenderPc.waiting, ReceiverPc.loopCheck, true, none, false,
            "gone", [], ["line"], []⟩ : CoreState).sent
    ∧ (senderStep (senderStep ⟨SenderPc.waiting, ReceiverPc.loopCheck, true, none, false,
        "gone", [], ["line"], []⟩).core).core.senderPc = SenderPc.done
    ∧ (senderStep (senderStep ⟨SenderPc.waiting, ReceiverPc.loopCheck, true, none, false,
        "gone", [], ["line"], []⟩).core).ops = []
    ∧ (senderStep (senderStep ⟨SenderPc.waiting, ReceiverPc.loopCheck, true, none, false,
        "gone", [], ["line"], []⟩).core).core.sent
        = (⟨SenderPc.waiting, ReceiverPc.loopCheck, true, none, false,
            "gone", [], ["line"], []⟩ : CoreState).sent :=
  c4_no_prompt_after_close
    ⟨SenderPc.waiting, ReceiverPc.loopCheck, true, none, false, "gone", [], ["line"], []⟩
    rfl rfl rfl

/-- Claim C5: Interrupt Latch set() is idempotent.  Delivering n >= 1
interrupt signals leads to exactly the same control state as delivering
one (with the latch set), so any subsequent schedule performs exactly
the same terminal operations and in particular the same number of
prompt cycles: never a queue of n prompts for n signals. -/
theorem c5_interrupt_idempotent (c : CoreState) (n : Nat) (sched : List Label)
    (h : 1 ≤ n) :
    runCore c (List.replicate n Label.sigint) = runCore c [Label.sigint]
    ∧ (runCore c (List.replicate n Label.sigint)).inputRequired = true
    ∧ promptCycles (producedOps (runCore c (List.replicate n Label.sigint)) sched)
        = promptCycles (producedOps (runCore c [Label.sigint]) sched) := by
  obtain ⟨k, rfl⟩ : ∃ k, n = k + 1 := ⟨n - 1, (Nat.succ_pred_eq_of_pos h).symm⟩
  have hmain : runCore c (List.replicate (k + 1) Label.sigint) = runCore c [Label.sigint] := by
    rw [List.replicate_succ, runCore_cons]
    exact sigint_iter k c
  refine ⟨hmain, ?_, ?_⟩
  · rw [hmain]; rfl
  · rw [hmain]

/-- Witness for c5_interrupt_idempotent at three interrupt signals. -/
theorem c5_witness :
    runCore (initCore []) (List.replicate 3 Label.sigint)
        = runCore (initCore []) [Label.sigint]
    ∧ (runCore (initCore []) (List.replicate 3 Label.sigint)).inputRequired = true
    ∧ promptCycles (producedOps (runCore (initCore []) (List.replicate 3 Label.sigint))
          [Label.sender])
        = promptCycles (producedOps (runCore (initCore []) [Label.sigint]) [Label.sender]) :=
  c5_interrupt_idempotent (initCore []) 3 [Label.sender] (by decide)

/-- Exceptions of the Python client relevant to the two loops:
websockets.ConnectionClosed with its reason, or any other exception. -/
inductive PyError
  | connectionClosed (reason : String)
  | other (description : String)
deriving DecidableEq

/-- The try/except of send_messages (client.py lines 26 and 37-38): a
normal body outcome is passed through, a ConnectionClosed failure is
handled by printing the closure notice, and any other failure
propagates out of the coroutine. -/
def senderCatch : Except PyError Unit → Except PyError (List TermOp)
  | Except.ok _ => Except.ok []
  | Except.error (PyError.connectionClosed r) => Except.ok [noticeOp r]
  | Except.error e => Except.error e

/-- The try/except of receive_messages (client.py lines 45 and 50-51):
same handling as the sender side. -/
def receiverCatch : Except PyError Unit → Except PyError (List TermOp)
  | Except.ok _ => Except.ok []
  | Except.error (PyError.connectionClosed r) => Except.ok [noticeOp r]
  | Except.error e => Except.error e

/-- Claim C6: both loops catch exactly ConnectionClosed.  On that error
each handler absorbs it and prints a closure notice (no retry, no
re-raise), while any other failure raised inside either loop body is
not caught and propagates fatally. -/
theorem c6_catch_connection_closed (r d : String) :
    senderCatch (Except.error (PyError.connectionClosed r)) = Except.ok [noticeOp r]
    ∧ receiverCatch (Except.error (PyError.connectionClosed r)) = Except.ok [noticeOp r]
    ∧ senderCatch (Except.error (PyError.other d)) = Except.error (PyError.other d)
    ∧ receiverCatch (Except.error (PyError.other d)) = Except.error (PyError.other d) :=
  ⟨rfl, rfl, rfl, rfl⟩

/-- Claim C7: the operator signals an interrupt and types the line ping
at the resulting prompt while the session is open: the Sender pushes
the outbound message ping exactly once and the latch is inactive once
the cycle completes. -/
theorem c7_ping_scenario :
    (run (initState ["ping"]) [Label.sigint, Label.sender, Label.sender,
        Label.sender, Label.sender]).core.sent = ["ping"]
    ∧ (run (initState ["ping"]) [Label.sigint, Label.sender, Label.sender,
        Label.sender, Label.sender]).core.inputRequired = false :=
  ⟨rfl, rfl⟩

/-- Claim C8: the channel delivers the single message hello and then
closes with reason peer disconnected: the terminal trace is exactly the
received-message print Recv: hello, then a closure notice carrying
peer disconnected, then the backspace write of require_input, and both
loops reach their final state, after which the process exits. -/
theorem c8_hello_scenario :
    (run (initState []) [Label.sender, Label.deliver "hello", Label.receiver,
        Label.receiver, Label.receiver, Label.receiver,
        Label.close "peer disconnected", Label.receiver, Label.receiver,
        Label.sender, Label.sender]).trace
      = [recvOp "hello", noticeOp "peer disconnected", backspaceOp]
    ∧ (run (initState []) [Label.sender, Label.deliver "hello", Label.receiver,
        Label.receiver, Label.receiver, Label.receiver,
        Label.close "peer disconnected", Label.receiver, Label.receiver,
        Label.sender, Label.sender]).core.senderPc = SenderPc.done
    ∧ (run (initState []) [Label.sender, Label.deliver "hello", Label.receiver,
        Label.receiver, Label.receiver, Label.receiver,
        Label.close "peer disconnected", Label.receiver, Label.receiver,
        Label.sender, Label.sender]).core.receiverPc = ReceiverPc.done :=
  ⟨rfl, rfl, rfl⟩

/-- Claim C9, counterexample: the claim says that after a send attempt
fails with ConnectionClosed the loop runs exactly one further iteration
in which wait() returns immediately and the open re-check routes to the
clear-and-exit path (which would clear the latch).  In the execution
below the send fails, and the very next Sender slice terminates the
loop directly from the while test, without re-entering wait() and
without ever clearing the latch: the latch is still set at
termination. -/
theorem c9_counterexample :
    (run (initState ["hi"]) [Label.sigint, Label.sender, Label.sender, Label.sender,
        Label.close "bye", Label.sender, Label.sender]).core.senderPc = SenderPc.done
    ∧ ¬ ((run (initState ["hi"]) [Label.sigint, Label.sender, Label.sender, Label.sender,
        Label.close "bye", Label.sender, Label.sender]).core.inputRequired = false) := by
  refine ⟨rfl, ?_⟩
  decide

/-- Claim C9, amended: if the send attempt fails with ConnectionClosed,
the latch is left unchanged (hence still set), the closure notice is
printed and control returns to the while test; since a failed send
means the transport reports the session closed, the very next Sender
slice terminates the loop, so the Sender never hangs after a failed
send, but it performs zero further iterations rather than one and never
clears the latch. -/
theorem c9_failed_send (c : CoreState) (msg : String)
    (hpc : c.senderPc = SenderPc.sending msg) (hco : c.connOpen = false) :
    (senderStep c).core.inputRequired = c.inputRequired
    ∧ (senderStep c).ops = [noticeOp c.closeReason]
    ∧ (senderStep c).core.senderPc = SenderPc.loopCheck
    ∧ (senderStep (senderStep c).core).core.senderPc = SenderPc.done
    ∧ (senderStep (senderStep c).core).core.inputRequired = c.inputRequired := by
  rcases c with ⟨sp, rp, ir, lh, co, cr, ib, si, se⟩
  cases hpc; cases hco
  exact ⟨rfl, rfl, rfl, rfl, rfl⟩

/-- Witness for c9_failed_send at a concrete state. -/
theorem c9_witness :
    (senderStep ⟨SenderPc.sending "hi", ReceiverPc.loopCheck, true, none, false,
        "bye", [], [], []⟩).core.inputRequired
        = (⟨SenderPc.sending "hi", ReceiverPc.loopCheck, true, none, false,
            "bye", [], [], []⟩ : CoreState).inputRequired
    ∧ (senderStep ⟨SenderPc.sending "hi", ReceiverPc.loopCheck, true, none, false,
        "bye", [], [], []⟩).ops
        = [noticeOp (⟨SenderPc.sending "hi", ReceiverPc.loopCheck, true, none, false,
            "bye", [], [], []⟩ : CoreState).closeReason]
    ∧ (senderStep ⟨SenderPc.sending "hi", ReceiverPc.loopCheck, true, none, false,
        "bye", [], [], []⟩).core.senderPc = SenderPc.loopCheck
    ∧ (senderStep (senderStep ⟨SenderPc.sending "hi", ReceiverPc.loopCheck, true, none, false,
        "bye", [], [], []⟩).core).core.senderPc = SenderPc.done
    ∧ (senderStep (senderStep ⟨SenderPc.sending "hi", ReceiverPc.loopCheck, true, none, false,
        "bye", [], [], []⟩).core).core.inputRequired
        = (⟨SenderPc.sending "hi", ReceiverPc.loopCheck, true, none, false,
            "bye", [], [], []⟩ : CoreState).inputRequired :=
  c9_failed_send
    ⟨SenderPc.sending "hi", ReceiverPc.loopCheck, true, none, false, "bye", [], [], []⟩
    "hi" rfl rfl

/-- Claim C10: every invocation of require_input, whether from the
SIGINT handler registered at client.py line 63 or from the Receiver
observing channel closure at line 53, performs the two-backspace write
outside the Console Arbiter and sets the Interrupt Latch (one set()
call), so latch activation is always accompanied by an unprotected
terminal write. -/
theorem c10_require_input (c : CoreState) :
    (require_input c).ops = [backspaceOp]
    ∧ backspaceOp.locked = false
    ∧ (require_input c).core.inputRequired = true
    ∧ (require_input c).sets = 1
    ∧ coreStep c Label.sigint = require_input c
    ∧ (c.receiverPc = ReceiverPc.loopCheck → c.connOpen = false →
        receiverStep c = require_input { c with receiverPc := ReceiverPc.done }) := by
  refine ⟨rfl, rfl, rfl, rfl, rfl, ?_⟩
  intro h1 h2
  rcases c with ⟨sp, rp, ir, lh, co, cr, ib, si, se⟩
  cases h1; cases h2
  rfl

/-- Witness for c10_require_input at a concrete state, including the
Receiver call site. -/
theorem c10_witness :
    (require_input ⟨SenderPc.loopCheck, ReceiverPc.loopCheck, false, none, false,
        "x", [], [], []⟩).ops = [backspaceOp]
    ∧ backspaceOp.locked = false
    ∧ (require_input ⟨SenderPc.loopCheck, ReceiverPc.loopCheck, false, none, false,
        "x", [], [], []⟩).core.inputRequired = true
    ∧ (require_input ⟨SenderPc.loopCheck, ReceiverPc.loopCheck, false, none, false,
        "x", [], [], []⟩).sets = 1
    ∧ coreStep ⟨SenderPc.loopCheck, ReceiverPc.loopCheck, false, none, false,
        "x", [], [], []⟩ Label.sigint
        = require_input ⟨SenderPc.loopCheck, ReceiverPc.loopCheck, false, none, false,
            "x", [], [], []⟩
    ∧ receiverStep ⟨SenderPc.loopCheck, ReceiverPc.loopCheck, false, none, false,
        "x", [], [], []⟩
        = require_input { (⟨SenderPc.loopCheck, ReceiverPc.loopCheck, false, none, false,
            "x", [], [], []⟩ : CoreState) with receiverPc := ReceiverPc.done } := by
  have h := c10_require_input ⟨SenderPc.loopCheck, ReceiverPc.loopCheck, false, none, false,
    "x", [], [], []⟩
  exact ⟨h.1, h.2.1, h.2.2.1, h.2.2.2.1, h.2.2.2.2.1, h.2.2.2.2.2 rfl rfl⟩
